import Mathlib

/-!
Shallow embedding of the anti-abuse engine of the live-voting repository
(source file `AntiAbuseEngine.cpp` / `AntiAbuseEngine.h`), together with
theorems settling the specification claims about it.

Modelling conventions:
* `std::chrono::system_clock::time_point` values are modelled as integer
  milliseconds since the epoch (`Timestamp := Int`); a
  `std::chrono::seconds` window duration of `s` seconds therefore subtracts
  `1000 * s` milliseconds, and `duration_cast<milliseconds>` of a
  time-point difference is exact integer subtraction.
* C++ `double` arithmetic is modelled exactly over `ℚ`; every constant in
  the source (0.4, 0.3, 200.0, ...) is exactly representable in binary
  floating point or small enough that the rational model tracks the
  intended real-number semantics of the scores.
* `std::unordered_map` lookup tables are modelled as functions into
  `Option`; `find == end` is `none`.  An `operator[]` read that would
  default-insert an empty entry is modelled as `Option.getD` with the
  default-constructed value, which is observationally equal for every
  operation embedded here.
* `std::unordered_set` / voter sets are modelled as duplicate-free lists
  (`insertSet` skips an element already present, like `set::insert`).
* Formatted description / reason strings built with `stringstream`
  (`BotDetectionResult::reason`, `CollusionDetectionResult::description`,
  `ThreatAlert::description`) are not read by any embedded operation and
  are omitted; the `"VOTE_<n>"` / `"ALERT_<n>"` identifier strings are
  modelled by their numeric counter `n`.
-/

abbrev UserId := String
abbrev ProposalId := String

/-- A `std::chrono::system_clock::time_point`, in integer milliseconds. -/
abbrev Timestamp := Int

/-! ## SlidingWindow -/

/-- `SlidingWindow`: a deque of timestamps plus the window duration
(`std::chrono::seconds windowDuration`, stored as its count of seconds). -/
structure SlidingWindow where
  windowSeconds : Int
  timestamps : List Timestamp
deriving Repr, DecidableEq

/-- The `while (!timestamps.empty() && timestamps.front() < cutoff) pop_front()`
loop of `SlidingWindow::cleanup`. -/
def SlidingWindow.cleanupLoop (cutoff : Timestamp) : List Timestamp → List Timestamp
  | [] => []
  | t :: ts => if t < cutoff then SlidingWindow.cleanupLoop cutoff ts else t :: ts

/-- `SlidingWindow::cleanup(currentTime)`: evict from the front while the
front timestamp is strictly older than `currentTime - windowDuration`. -/
def SlidingWindow.cleanup (w : SlidingWindow) (currentTime : Timestamp) : SlidingWindow :=
  { w with timestamps :=
      SlidingWindow.cleanupLoop (currentTime - 1000 * w.windowSeconds) w.timestamps }

/-- `SlidingWindow::addEvent(timestamp)`: push back, then `cleanup(timestamp)`. -/
def SlidingWindow.addEvent (w : SlidingWindow) (timestamp : Timestamp) : SlidingWindow :=
  SlidingWindow.cleanup { w with timestamps := w.timestamps ++ [timestamp] } timestamp

/-- `SlidingWindow::getEventCount`. -/
def SlidingWindow.getEventCount (w : SlidingWindow) : Nat :=
  w.timestamps.length

/-- `SlidingWindow::getRate`: events per minute, `0.0` on the empty window. -/
def SlidingWindow.getRate (w : SlidingWindow) : ℚ :=
  if w.timestamps = [] then 0
  else ((w.timestamps.length : ℚ) / (w.windowSeconds : ℚ)) * 60

/-- Sum of consecutive timestamp differences, in milliseconds (the
`totalGapMs` accumulator of `SlidingWindow::getAverageGapMs`). -/
def gapSum : List Timestamp → Int
  | [] => 0
  | [_] => 0
  | a :: b :: ts => (b - a) + gapSum (b :: ts)

/-- `SlidingWindow::getAverageGapMs`: mean consecutive gap, `0.0` with
fewer than two samples. -/
def SlidingWindow.getAverageGapMs (w : SlidingWindow) : ℚ :=
  if w.timestamps.length < 2 then 0
  else (gapSum w.timestamps : ℚ) / ((w.timestamps.length : ℚ) - 1)

/-- The window-correctness predicate of the spec: every stored timestamp is
within `windowDuration` of `now` (no entry strictly older than the cutoff). -/
def SlidingWindow.wellCleaned (w : SlidingWindow) (now : Timestamp) : Prop :=
  ∀ t ∈ w.timestamps, now - 1000 * w.windowSeconds ≤ t

instance (w : SlidingWindow) (now : Timestamp) : Decidable (w.wellCleaned now) := by
  unfold SlidingWindow.wellCleaned; infer_instance

/-- Fold a sequence of `addEvent` calls over a window. -/
def SlidingWindow.applyEvents (w : SlidingWindow) (ts : List Timestamp) : SlidingWindow :=
  ts.foldl SlidingWindow.addEvent w

/-! ## CoVotingGraph -/

/-- `std::unordered_set::insert` on a duplicate-free list. -/
def insertSet (s : List String) (u : String) : List String :=
  if u ∈ s then s else u :: s

/-- `CoVotingGraph`: `adjacency[a][b]` is the co-vote weight (a missing
entry reads as `0`, exactly as `getCoVoteCount` treats `find == end`);
`proposalVoters` is the per-proposal voter set. -/
structure CoVotingGraph where
  adjacency : UserId → UserId → Nat
  proposalVoters : ProposalId → List UserId

/-- A default-constructed `CoVotingGraph`: empty maps. -/
def CoVotingGraph.empty : CoVotingGraph :=
  { adjacency := fun _ _ => 0, proposalVoters := fun _ => [] }

/-- `CoVotingGraph::addVote(userId, proposalId)`: insert the user into the
proposal's voter set, then for every `otherUser ≠ userId` in that set
increment `adjacency[userId][otherUser]` and `adjacency[otherUser][userId]`.
The per-iteration increments of the C++ loop are expressed pointwise: entry
`(a, b)` gains `1` when `a = userId` and `b` is another voter (the
`adjacency[userId][otherUser]++` of `b`'s iteration), and `1` when
`b = userId` and `a` is another voter (the `adjacency[otherUser][userId]++`
of `a`'s iteration); the voter set is duplicate-free, so each iteration
contributes exactly once. -/
def CoVotingGraph.addVote (g : CoVotingGraph) (userId : UserId) (proposalId : ProposalId) :
    CoVotingGraph :=
  let voters := insertSet (g.proposalVoters proposalId) userId
  { adjacency := fun a b =>
      g.adjacency a b
        + (if a = userId ∧ b ≠ userId ∧ b ∈ voters then 1 else 0)
        + (if b = userId ∧ a ≠ userId ∧ a ∈ voters then 1 else 0),
    proposalVoters := fun p => if p = proposalId then voters else g.proposalVoters p }

/-- `CoVotingGraph::getCoVoteCount(user1, user2)`; a missing row or entry
returns `0` (built into the total-function model of `adjacency`). -/
def CoVotingGraph.getCoVoteCount (g : CoVotingGraph) (user1 user2 : UserId) : Nat :=
  g.adjacency user1 user2

/-- Replay a list of `(userId, proposalId)` votes through
`CoVotingGraph::addVote`, starting from the empty graph: the reachable
graph states. -/
def CoVotingGraph.build (ops : List (UserId × ProposalId)) : CoVotingGraph :=
  ops.foldl (fun g uv => g.addVote uv.1 uv.2) CoVotingGraph.empty

/-! ## Engine data structures -/

/-- `VoteEvent`; the `"VOTE_<n>"` identifier is modelled by the counter
`n` (the user's history size at creation time). -/
structure VoteEvent where
  voteId : Nat
  userId : UserId
  proposalId : ProposalId
  timestamp : Timestamp
  ipHash : String
  deviceHash : String
deriving Repr, DecidableEq

/-- `BotDetectionResult` (the formatted `reason` string is omitted). -/
structure BotDetectionResult where
  userId : UserId
  botLikelihood : ℚ
  votingVelocity : ℚ
  avgInterVoteGapMs : ℚ
  deviceDiversity : Nat
  ipDiversity : Nat
  isSuspicious : Bool
deriving Repr, DecidableEq

/-- The default-constructed `BotDetectionResult`. -/
def BotDetectionResult.mkDefault : BotDetectionResult :=
  { userId := "", botLikelihood := 0, votingVelocity := 0, avgInterVoteGapMs := 0,
    deviceDiversity := 0, ipDiversity := 0, isSuspicious := false }

/-- `CollusionDetectionResult` (the formatted `description` string is
omitted). -/
structure CollusionDetectionResult where
  userGroup : List UserId
  collusionScore : ℚ
  coVoteCount : Nat
  coVoteRate : ℚ
  isSuspicious : Bool
deriving Repr, DecidableEq

/-- `UserCredibilityScore`. -/
structure UserCredibilityScore where
  userId : UserId
  trustScore : ℚ
  accountAgeScore : ℚ
  deviceDiversityScore : ℚ
  majorityAgreementScore : ℚ
  verificationScore : ℚ
  botLikelihood : ℚ
  collusionScore : ℚ
  consistencyScore : ℚ
  reportScore : ℚ
deriving Repr, DecidableEq

/-- `ThreatAlert`; the `"ALERT_<n>"` identifier is modelled by the counter
`n`, and the formatted `description` and the wall-clock `timestamp` taken
from `system_clock::now()` are omitted. -/
structure ThreatAlert where
  alertId : Nat
  alertType : String
  severity : ℚ
  involvedUsers : List UserId
  resolved : Bool
deriving Repr, DecidableEq

/-- Point update of an `unordered_map` modelled as a function into `Option`. -/
def mapInsert {α : Type} (m : String → Option α) (k : String) (v : α) :
    String → Option α :=
  fun x => if x = k then some v else m x

/-- `unordered_map::erase` on the same model. -/
def mapErase {α : Type} (m : String → Option α) (k : String) :
    String → Option α :=
  fun x => if x = k then none else m x

/-- The full `AntiAbuseEngine` state: every `unordered_map` member, the
graph, the caches, the alert list, the configuration thresholds, and the
(`static int`) alert counter. -/
structure AntiAbuseEngine where
  userVoteHistory : UserId → Option (List VoteEvent)
  userVelocityWindows : UserId → Option SlidingWindow
  userIPs : UserId → Option (List String)
  userDevices : UserId → Option (List String)
  ipToUsers : String → Option (List UserId)
  deviceToUsers : String → Option (List UserId)
  coVotingGraph : CoVotingGraph
  botDetectionCache : UserId → Option BotDetectionResult
  collusionDetectionCache : List CollusionDetectionResult
  userCredibilityScores : UserId → Option UserCredibilityScore
  threatAlerts : List ThreatAlert
  suspiciousUsers : UserId → Option Bool
  velocityThreshold : ℚ
  deltaThresholdMs : ℚ
  minCoVotesForCollusion : Nat
  collusionThreshold : ℚ
  botLikelihoodThreshold : ℚ
  velocityWindowSeconds : Int
  alertCounter : Nat

/-- The `AntiAbuseEngine(velThreshold, deltaThreshold, windowSeconds)`
constructor: empty state, `minCoVotesForCollusion = 5`,
`collusionThreshold = 0.7`, `botLikelihoodThreshold = 0.7`. -/
def AntiAbuseEngine.init (velThreshold deltaThreshold : ℚ) (windowSeconds : Int) :
    AntiAbuseEngine :=
  { userVoteHistory := fun _ => none
    userVelocityWindows := fun _ => none
    userIPs := fun _ => none
    userDevices := fun _ => none
    ipToUsers := fun _ => none
    deviceToUsers := fun _ => none
    coVotingGraph := CoVotingGraph.empty
    botDetectionCache := fun _ => none
    collusionDetectionCache := []
    userCredibilityScores := fun _ => none
    threatAlerts := []
    suspiciousUsers := fun _ => none
    velocityThreshold := velThreshold
    deltaThresholdMs := deltaThreshold
    minCoVotesForCollusion := 5
    collusionThreshold := 0.7
    botLikelihoodThreshold := 0.7
    velocityWindowSeconds := windowSeconds
    alertCounter := 0 }

/-! ## Engine operations -/

/-- `AntiAbuseEngine::calculateVotingVelocity`. -/
def AntiAbuseEngine.calculateVotingVelocity (e : AntiAbuseEngine) (userId : UserId) : ℚ :=
  (e.userVelocityWindows userId).elim 0 (fun w => w.getRate)

/-- `AntiAbuseEngine::calculateAvgInterVoteGap`. -/
def AntiAbuseEngine.calculateAvgInterVoteGap (e : AntiAbuseEngine) (userId : UserId) : ℚ :=
  (e.userVelocityWindows userId).elim 0 (fun w => w.getAverageGapMs)

/-- `AntiAbuseEngine::detectBotBehavior`. -/
def AntiAbuseEngine.detectBotBehavior (e : AntiAbuseEngine) (userId : UserId) : Bool :=
  let velocity := e.calculateVotingVelocity userId
  let avgGap := e.calculateAvgInterVoteGap userId
  decide (e.velocityThreshold < velocity)
    || (decide ((0 : ℚ) < avgGap) && decide (avgGap < e.deltaThresholdMs))

/-- `AntiAbuseEngine::markUserSuspicious` (the `reason` argument is unused
in the source). -/
def AntiAbuseEngine.markUserSuspicious (e : AntiAbuseEngine) (userId : UserId) :
    AntiAbuseEngine :=
  { e with suspiciousUsers := mapInsert e.suspiciousUsers userId true }

/-- `AntiAbuseEngine::generateThreatAlert`. -/
def AntiAbuseEngine.generateThreatAlert (e : AntiAbuseEngine) (alertType : String)
    (severity : ℚ) (users : List UserId) : AntiAbuseEngine :=
  { e with
    alertCounter := e.alertCounter + 1
    threatAlerts := e.threatAlerts ++
      [{ alertId := e.alertCounter + 1, alertType := alertType, severity := severity,
         involvedUsers := users, resolved := false }] }

/-- The `BotDetectionResult` computed by the body of
`AntiAbuseEngine::updateBotDetection(userId)` (before it is cached):
recompute velocity, gap and diversity, and blend the bot-likelihood score
`min(1.0, 0.4 * velocityScore + 0.4 * gapScore + deviceScore + ipScore)`
with `deviceScore = 0.3` on exactly one device and `ipScore = 0.2` on
exactly one IP. -/
def AntiAbuseEngine.botResultFor (e : AntiAbuseEngine) (userId : UserId) :
    BotDetectionResult :=
  let votingVelocity := e.calculateVotingVelocity userId
  let avgInterVoteGapMs := e.calculateAvgInterVoteGap userId
  let deviceDiversity := ((e.userDevices userId).getD []).length
  let ipDiversity := ((e.userIPs userId).getD []).length
  let isSuspicious := e.detectBotBehavior userId
  let velocityScore := min 1 (votingVelocity / (e.velocityThreshold * 2))
  let gapScore : ℚ :=
    if 0 < avgInterVoteGapMs ∧ avgInterVoteGapMs < e.deltaThresholdMs then
      1 - avgInterVoteGapMs / e.deltaThresholdMs
    else 0
  let deviceScore : ℚ := if deviceDiversity = 1 then 0.3 else 0
  let ipScore : ℚ := if ipDiversity = 1 then 0.2 else 0
  let botLikelihood :=
    min 1 (0.4 * velocityScore + 0.4 * gapScore + deviceScore + ipScore)
  { userId := userId, botLikelihood := botLikelihood,
    votingVelocity := votingVelocity, avgInterVoteGapMs := avgInterVoteGapMs,
    deviceDiversity := deviceDiversity, ipDiversity := ipDiversity,
    isSuspicious := isSuspicious }

/-- `AntiAbuseEngine::updateBotDetection(userId)`: compute the result
(`botResultFor`), cache it, and raise a `bot_detected` alert (marking the
user suspicious) when both the heuristic flag and the likelihood threshold
fire. -/
def AntiAbuseEngine.updateBotDetection (e : AntiAbuseEngine) (userId : UserId) :
    AntiAbuseEngine :=
  let result := e.botResultFor userId
  let e1 := { e with botDetectionCache := mapInsert e.botDetectionCache userId result }
  if result.isSuspicious = true ∧ e.botLikelihoodThreshold < result.botLikelihood then
    (e1.generateThreatAlert "bot_detected" result.botLikelihood
      [userId]).markUserSuspicious userId
  else
    e1

/-- `AntiAbuseEngine::recordVoteEvent`. -/
def AntiAbuseEngine.recordVoteEvent (e : AntiAbuseEngine) (userId : UserId)
    (proposalId : ProposalId) (timestamp : Timestamp) (ipHash deviceHash : String) :
    AntiAbuseEngine :=
  let history := (e.userVoteHistory userId).getD []
  let event : VoteEvent :=
    { voteId := history.length, userId := userId, proposalId := proposalId,
      timestamp := timestamp, ipHash := ipHash, deviceHash := deviceHash }
  let e1 :=
    { e with userVoteHistory := mapInsert e.userVoteHistory userId (history ++ [event]) }
  let window := (e1.userVelocityWindows userId).getD
    { windowSeconds := e.velocityWindowSeconds, timestamps := [] }
  let e2 :=
    { e1 with userVelocityWindows :=
        mapInsert e1.userVelocityWindows userId (window.addEvent timestamp) }
  let e3 :=
    if ipHash ≠ "" then
      { e2 with
        userIPs := mapInsert e2.userIPs userId
          (insertSet ((e2.userIPs userId).getD []) ipHash)
        ipToUsers := mapInsert e2.ipToUsers ipHash
          (((e2.ipToUsers ipHash).getD []) ++ [userId]) }
    else e2
  let e4 :=
    if deviceHash ≠ "" then
      { e3 with
        userDevices := mapInsert e3.userDevices userId
          (insertSet ((e3.userDevices userId).getD []) deviceHash)
        deviceToUsers := mapInsert e3.deviceToUsers deviceHash
          (((e3.deviceToUsers deviceHash).getD []) ++ [userId]) }
    else e3
  let e5 := { e4 with coVotingGraph := e4.coVotingGraph.addVote userId proposalId }
  e5.updateBotDetection userId

/-- `AntiAbuseEngine::detectBot(userId)`: return the cached result, or
compute via `updateBotDetection` and read the freshly cached entry. -/
def AntiAbuseEngine.detectBot (e : AntiAbuseEngine) (userId : UserId) :
    AntiAbuseEngine × BotDetectionResult :=
  (e.botDetectionCache userId).elim
    (let e1 := e.updateBotDetection userId
     (e1, (e1.botDetectionCache userId).getD BotDetectionResult.mkDefault))
    (fun r => (e, r))

/-- `AntiAbuseEngine::calculateAccountAgeScore`: `min(1, voteCount / 50)`. -/
def AntiAbuseEngine.calculateAccountAgeScore (e : AntiAbuseEngine) (userId : UserId) : ℚ :=
  min 1 ((((e.userVoteHistory userId).getD []).length : ℚ) / 50)

/-- `AntiAbuseEngine::calculateMajorityAgreementScore`: fixed neutral `0.5`. -/
def AntiAbuseEngine.calculateMajorityAgreementScore (_e : AntiAbuseEngine)
    (_userId : UserId) : ℚ :=
  0.5

/-- The device-diversity heuristic of `calculateUserCredibility`
(single device 0.8, two 0.6, more 0.3, none recorded 0.5). -/
def deviceDiversityScoreOf (deviceCount : Nat) : ℚ :=
  if deviceCount = 0 then 0.5
  else if deviceCount = 1 then 0.8
  else if deviceCount = 2 then 0.6
  else 0.3

/-- The collusion-score loop of `calculateUserCredibility`: the maximum
cached collusion score over the groups containing the user, starting
from `0.0`. -/
def collusionScoreFor (cache : List CollusionDetectionResult) (userId : UserId) : ℚ :=
  cache.foldl
    (fun acc r => if userId ∈ r.userGroup then max acc r.collusionScore else acc) 0

/-- `AntiAbuseEngine::calculateUserCredibility(userId)`: gather the bot
result (via `detectBot`), the component scores, blend the weighted trust
score, and cache the `UserCredibilityScore`. -/
def AntiAbuseEngine.calculateUserCredibility (e : AntiAbuseEngine) (userId : UserId) :
    AntiAbuseEngine × UserCredibilityScore :=
  let p := e.detectBot userId
  let e1 := p.1
  let botResult := p.2
  let accountAgeScore := e1.calculateAccountAgeScore userId
  let deviceDiversityScore := deviceDiversityScoreOf ((e1.userDevices userId).getD []).length
  let majorityAgreementScore := e1.calculateMajorityAgreementScore userId
  let verificationScore : ℚ := 0.5
  let collusionScore := collusionScoreFor e1.collusionDetectionCache userId
  let consistencyScore : ℚ := 0.5
  let reportScore : ℚ := 1
  let trustScore :=
    0.20 * accountAgeScore +
    0.15 * deviceDiversityScore +
    0.15 * majorityAgreementScore +
    0.10 * verificationScore +
    0.15 * (1 - botResult.botLikelihood) +
    0.15 * (1 - collusionScore) +
    0.05 * consistencyScore +
    0.05 * reportScore
  let score : UserCredibilityScore :=
    { userId := userId, trustScore := trustScore, accountAgeScore := accountAgeScore,
      deviceDiversityScore := deviceDiversityScore,
      majorityAgreementScore := majorityAgreementScore,
      verificationScore := verificationScore, botLikelihood := botResult.botLikelihood,
      collusionScore := collusionScore, consistencyScore := consistencyScore,
      reportScore := reportScore }
  ({ e1 with userCredibilityScores := mapInsert e1.userCredibilityScores userId score },
   score)

/-- `AntiAbuseEngine::getUserTrustScore(userId)`: return the cached trust
score when present, otherwise compute and cache via
`calculateUserCredibility`. -/
def AntiAbuseEngine.getUserTrustScore (e : AntiAbuseEngine) (userId : UserId) :
    AntiAbuseEngine × ℚ :=
  (e.userCredibilityScores userId).elim
    (let p := e.calculateUserCredibility userId
     (p.1, p.2.trustScore))
    (fun s => (e, s.trustScore))

/-- `AntiAbuseEngine::clearUser(userId)`: erase the user's entry from the
seven per-user maps; nothing else is touched. -/
def AntiAbuseEngine.clearUser (e : AntiAbuseEngine) (userId : UserId) : AntiAbuseEngine :=
  { e with
    userVoteHistory := mapErase e.userVoteHistory userId
    userVelocityWindows := mapErase e.userVelocityWindows userId
    userIPs := mapErase e.userIPs userId
    userDevices := mapErase e.userDevices userId
    botDetectionCache := mapErase e.botDetectionCache userId
    userCredibilityScores := mapErase e.userCredibilityScores userId
    suspiciousUsers := mapErase e.suspiciousUsers userId }

/-! ## Collusion scoring (per detected community) -/

/-- All index pairs `i < j` of a list, in the iteration order of the double
loop `for i; for j = i+1` of `updateCollusionDetection`. -/
def offDiagPairs {α : Type} : List α → List (α × α)
  | [] => []
  | x :: xs => xs.map (fun y => (x, y)) ++ offDiagPairs xs

/-- The accumulator loop of `updateCollusionDetection`: for every index
pair `i < j` of the community with positive co-vote count, add the count to
`totalCoVotes` and bump `edgeCount`; returns `(totalCoVotes, edgeCount)`. -/
def collusionStats (g : CoVotingGraph) (community : List UserId) : Nat × Nat :=
  (offDiagPairs community).foldl
    (fun acc p =>
      let coVotes := g.getCoVoteCount p.1 p.2
      if 0 < coVotes then (acc.1 + coVotes, acc.2 + 1) else acc)
    (0, 0)

/-- The per-community body of `AntiAbuseEngine::updateCollusionDetection`
(lines computing `totalCoVotes`, `edgeCount`, `density`, `avgCoVotes`, and
`collusionScore = min(1.0, 0.5 * density + 0.5 * (avgCoVotes / 20.0))`);
`collusionThreshold` decides the `isSuspicious` flag. -/
def collusionResultOfCommunity (collusionThreshold : ℚ) (g : CoVotingGraph)
    (community : List UserId) : CollusionDetectionResult :=
  let totalCoVotes := (collusionStats g community).1
  let edgeCount := (collusionStats g community).2
  let maxPossibleEdges := community.length * (community.length - 1) / 2
  let density : ℚ := if 0 < maxPossibleEdges then (edgeCount : ℚ) / (maxPossibleEdges : ℚ) else 0
  let avgCoVotes : ℚ := if 0 < edgeCount then (totalCoVotes : ℚ) / (edgeCount : ℚ) else 0
  let collusionScore := min 1 (0.5 * density + 0.5 * (avgCoVotes / 20))
  { userGroup := community, collusionScore := collusionScore,
    coVoteCount := totalCoVotes, coVoteRate := density,
    isSuspicious := decide (collusionThreshold < collusionScore) }

/-! ## Spec-side definitions (for refinement comparisons) -/

/-- Per the spec sentence: the realized edges of a community are the
unordered member pairs with positive co-vote count. -/
def specRealizedEdges (g : CoVotingGraph) (community : List UserId) : Nat :=
  ((offDiagPairs community).filter (fun p => 0 < g.getCoVoteCount p.1 p.2)).length

/-- Per the spec sentence: total co-votes summed over the realized edges. -/
def specTotalCoVotes (g : CoVotingGraph) (community : List UserId) : Nat :=
  (((offDiagPairs community).filter (fun p => 0 < g.getCoVoteCount p.1 p.2)).map
    (fun p => g.getCoVoteCount p.1 p.2)).sum

/-- Per the spec sentence `density = realizedEdges / C(size, 2)` (in `ℚ`,
where division by `0` yields `0`, matching the code's guarded division). -/
def specDensity (g : CoVotingGraph) (community : List UserId) : ℚ :=
  (specRealizedEdges g community : ℚ) / (community.length.choose 2 : ℚ)

/-- Per the spec sentence `avgCoVotes = totalCoVotes / realizedEdges`
(`0` if no edges). -/
def specAvgCoVotes (g : CoVotingGraph) (community : List UserId) : ℚ :=
  if 0 < specRealizedEdges g community then
    (specTotalCoVotes g community : ℚ) / (specRealizedEdges g community : ℚ)
  else 0

/-- Modelled from the spec sentence of claim C4:
`collusionScore = min(1, 0.5 × density + 0.5 × min(1, avgCoVotes / 20))`,
with the `avgCoVotes` term capped at `1` before weighting. -/
def specCollusionScoreCapped (g : CoVotingGraph) (community : List UserId) : ℚ :=
  min 1 (0.5 * specDensity g community + 0.5 * min 1 (specAvgCoVotes g community / 20))

/-- Modelled from the spec sentences of claim C7: the bot-likelihood blend
`min(1, 0.4 × min(1, rate / (2 × velocityThreshold)) + 0.4 × gapTerm +
0.3 × [one device] + 0.2 × [one IP])`. -/
def specBotLikelihood (velocityThreshold deltaThresholdMs rate gap : ℚ)
    (deviceCount ipCount : Nat) : ℚ :=
  min 1
    (0.4 * min 1 (rate / (2 * velocityThreshold))
      + 0.4 * (if 0 < gap ∧ gap < deltaThresholdMs then 1 - gap / deltaThresholdMs else 0)
      + 0.3 * (if deviceCount = 1 then 1 else 0)
      + 0.2 * (if ipCount = 1 then 1 else 0))

/-! ## Sliding-window lemmas -/

theorem cleanupLoop_suffix (c : Timestamp) (l : List Timestamp) :
    (SlidingWindow.cleanupLoop c l).IsSuffix l := by
  induction l with
  | nil => simp [SlidingWindow.cleanupLoop]
  | cons t ts ih =>
    by_cases h : t < c
    · simp only [SlidingWindow.cleanupLoop, if_pos h]
      exact ih.trans (List.suffix_cons t ts)
    · simp [SlidingWindow.cleanupLoop, h]

theorem mem_cleanupLoop_ge (c : Timestamp) (l : List Timestamp)
    (hl : l.Pairwise (· ≤ ·)) : ∀ x ∈ SlidingWindow.cleanupLoop c l, c ≤ x := by
  induction l with
  | nil => simp [SlidingWindow.cleanupLoop]
  | cons t ts ih =>
    rw [List.pairwise_cons] at hl
    by_cases h : t < c
    · simpa [SlidingWindow.cleanupLoop, h] using ih hl.2
    · intro x hx
      simp only [SlidingWindow.cleanupLoop, if_neg h, List.mem_cons] at hx
      rcases hx with rfl | hx
      · exact not_lt.mp h
      · exact le_trans (not_lt.mp h) (hl.1 x hx)

theorem addEvent_wellCleaned (w : SlidingWindow) (t : Timestamp)
    (hw : w.timestamps.Pairwise (· ≤ ·)) (hle : ∀ x ∈ w.timestamps, x ≤ t) :
    (w.addEvent t).wellCleaned t ∧ (w.addEvent t).timestamps.Pairwise (· ≤ ·) ∧
      (w.addEvent t).windowSeconds = w.windowSeconds := by
  have happ : (w.timestamps ++ [t]).Pairwise (· ≤ ·) := by
    rw [List.pairwise_append]
    exact ⟨hw, List.pairwise_singleton _ _, by simpa using hle⟩
  refine ⟨?_, ?_, rfl⟩
  · intro x hx
    exact mem_cleanupLoop_ge _ _ happ x hx
  · exact happ.sublist (cleanupLoop_suffix _ _).sublist

theorem applyEvents_sorted (ts : List Timestamp) : ∀ w : SlidingWindow,
    (w.timestamps ++ ts).Pairwise (· ≤ ·) →
    (w.applyEvents ts).timestamps.Pairwise (· ≤ ·) ∧
    (∀ x ∈ (w.applyEvents ts).timestamps, x ∈ w.timestamps ++ ts) ∧
    (w.applyEvents ts).windowSeconds = w.windowSeconds := by
  induction ts with
  | nil =>
    intro w h
    refine ⟨by simpa [SlidingWindow.applyEvents] using h, ?_, rfl⟩
    intro x hx
    simp only [SlidingWindow.applyEvents, List.foldl_nil] at hx
    simpa using hx
  | cons t ts ih =>
    intro w h
    have hsplit := List.pairwise_append.mp h
    have hle : ∀ x ∈ w.timestamps, x ≤ t :=
      fun x hx => hsplit.2.2 x hx t (List.mem_cons_self t ts)
    have hadd := addEvent_wellCleaned w t hsplit.1 hle
    have hsubl : ((w.addEvent t).timestamps ++ ts).Sublist (w.timestamps ++ t :: ts) := by
      have h1 : ((w.addEvent t).timestamps ++ ts).Sublist ((w.timestamps ++ [t]) ++ ts) :=
        List.Sublist.append_right (cleanupLoop_suffix _ _).sublist ts
      simpa [List.append_assoc] using h1
    have hstep : w.applyEvents (t :: ts) = (w.addEvent t).applyEvents ts := rfl
    have hres := ih (w.addEvent t) (h.sublist hsubl)
    refine ⟨by rw [hstep]; exact hres.1, ?_, by rw [hstep]; rw [hres.2.2]; exact hadd.2.2⟩
    intro x hx
    rw [hstep] at hx
    have hx2 := hres.2.1 x hx
    rcases List.mem_append.mp hx2 with hx3 | hx3
    · have := (cleanupLoop_suffix _ _).sublist.subset hx3
      rcases List.mem_append.mp this with hx4 | hx4
      · exact List.mem_append_left _ hx4
      · refine List.mem_append_right _ ?_
        simpa using Or.inl (by simpa using hx4)
    · exact List.mem_append_right _ (List.mem_cons_of_mem t hx3)

/-! ## Co-voting graph symmetry lemmas -/

theorem addVote_adjacency_symm (g : CoVotingGraph) (u : UserId) (p : ProposalId)
    (h : ∀ a b, g.adjacency a b = g.adjacency b a) :
    ∀ a b, (g.addVote u p).adjacency a b = (g.addVote u p).adjacency b a := by
  intro a b
  simp only [CoVotingGraph.addVote]
  rw [h a b]
  ring

theorem foldl_addVote_symm (ops : List (UserId × ProposalId)) :
    ∀ g : CoVotingGraph, (∀ a b, g.adjacency a b = g.adjacency b a) →
    ∀ a b, (ops.foldl (fun g uv => g.addVote uv.1 uv.2) g).adjacency a b
         = (ops.foldl (fun g uv => g.addVote uv.1 uv.2) g).adjacency b a := by
  induction ops with
  | nil => intro g h; simpa using h
  | cons op ops ih =>
    intro g h
    exact ih (g.addVote op.1 op.2) (addVote_adjacency_symm g op.1 op.2 h)

/-! ## Claim theorems: C2, C3, C6 -/

/-- C2: the claim says a second `CoVotingGraph::addVote(u, p)` for a user
already recorded as a voter of `p` leaves every co-vote weight unchanged.
The code has no such skip: after `addVote("A","p"); addVote("B","p")` the
co-vote weight of `("A","B")` is `1`, and the duplicate call
`addVote("A","p")` increments it again to `2`, contradicting the spec's
idempotence requirement and the header comment that `adjacency[u1][u2]` is
the number of times the two users voted together. -/
theorem C2_duplicate_addVote_changes_weight :
    ((CoVotingGraph.empty.addVote "A" "p").addVote "B" "p").getCoVoteCount "A" "B" = 1 ∧
    ((((CoVotingGraph.empty.addVote "A" "p").addVote "B" "p").addVote
        "A" "p").getCoVoteCount "A" "B") = 2 := by
  decide

/-- C3 (counterexample): the claim quantifies over all insertion sequences,
including out-of-order timestamps.  With a 10-second window, the sequence
`addEvent 100000; addEvent 5; addEvent 100100` (milliseconds) leaves the
stale timestamp `5` in the window after the last insertion, although
`5 < 100100 − 10000`: eviction only pops from the front, and the front
entry `100000` is fresh, so the loop never reaches the stale entry behind
it. -/
theorem C3_counterexample :
    ¬ ((((SlidingWindow.mk 10 []).addEvent 100000).addEvent 5).addEvent
        100100).wellCleaned 100100 := by
  decide

/-- C3 (amended): for monotone (non-decreasing timestamp) insertion
sequences, immediately after each insertion the window contains no
timestamp strictly older than `now − windowDuration` (the `wellCleaned`
predicate at the time of the last insertion; every prefix of a monotone
sequence is itself monotone, so this covers each intermediate insertion). -/
theorem C3_window_correct_monotone (secs : Int) (earlier : List Timestamp)
    (t : Timestamp) (h : (earlier ++ [t]).Pairwise (· ≤ ·)) :
    (SlidingWindow.applyEvents ⟨secs, []⟩ (earlier ++ [t])).wellCleaned t := by
  have hsplit := List.pairwise_append.mp h
  have hW := applyEvents_sorted earlier ⟨secs, []⟩ (by simpa using hsplit.1)
  have hfold : SlidingWindow.applyEvents ⟨secs, []⟩ (earlier ++ [t])
      = (SlidingWindow.applyEvents ⟨secs, []⟩ earlier).addEvent t := by
    simp [SlidingWindow.applyEvents]
  rw [hfold]
  have hle : ∀ x ∈ (SlidingWindow.applyEvents ⟨secs, []⟩ earlier).timestamps, x ≤ t := by
    intro x hx
    have hx2 := hW.2.1 x hx
    simp only [List.nil_append] at hx2
    exact hsplit.2.2 x hx2 t (by simp)
  exact (addEvent_wellCleaned _ t hW.1 hle).1

/-- C3 (witness for the amended theorem): a concrete monotone sequence. -/
theorem C3_window_correct_monotone_witness :
    (([0, 5000] ++ [20000] : List Timestamp).Pairwise (· ≤ ·)) ∧
    (SlidingWindow.applyEvents ⟨10, []⟩ ([0, 5000] ++ [20000])).wellCleaned 20000 :=
  ⟨by decide, C3_window_correct_monotone 10 [0, 5000] 20000 (by decide)⟩

/-- C6: for every reachable graph state (any sequence of `addVote` calls
replayed from the empty graph) and every pair of users,
`getCoVoteCount(u, v) = getCoVoteCount(v, u)`: each loop iteration of
`addVote` increments both directions, preserving symmetry. -/
theorem C6_getCoVoteCount_symm (ops : List (UserId × ProposalId)) (u v : UserId) :
    (CoVotingGraph.build ops).getCoVoteCount u v
      = (CoVotingGraph.build ops).getCoVoteCount v u :=
  foldl_addVote_symm ops CoVotingGraph.empty (fun _ _ => rfl) u v

/-! ## Collusion-score lemmas and claim C4 -/

theorem collusionStats_loop (g : CoVotingGraph) (l : List (UserId × UserId)) :
    ∀ acc : Nat × Nat,
    l.foldl (fun acc p =>
        let coVotes := g.getCoVoteCount p.1 p.2
        if 0 < coVotes then (acc.1 + coVotes, acc.2 + 1) else acc) acc
      = (acc.1 + ((l.filter fun p => 0 < g.getCoVoteCount p.1 p.2).map
            (fun p => g.getCoVoteCount p.1 p.2)).sum,
         acc.2 + (l.filter fun p => 0 < g.getCoVoteCount p.1 p.2).length) := by
  induction l with
  | nil => intro acc; simp
  | cons p l ih =>
    intro acc
    by_cases h : 0 < g.getCoVoteCount p.1 p.2
    · simp [List.filter_cons, h, ih]
      omega
    · simp [List.filter_cons, h, ih]

theorem collusionStats_spec (g : CoVotingGraph) (community : List UserId) :
    collusionStats g community
      = (specTotalCoVotes g community, specRealizedEdges g community) := by
  simpa [collusionStats, specTotalCoVotes, specRealizedEdges] using
    collusionStats_loop g (offDiagPairs community) (0, 0)

/-- C4 (amended): for every graph and community, the collusion score
computed by the per-community body of `updateCollusionDetection` equals
`min(1, 0.5 × density + 0.5 × (avgCoVotes / 20))` with
`density = realizedEdges / C(size, 2)` and
`avgCoVotes = totalCoVotes / realizedEdges` (`0` if no edges) — the
`avgCoVotes / 20` term is NOT capped at `1` before being weighted. -/
theorem C4_collusionScore_formula (th : ℚ) (g : CoVotingGraph)
    (community : List UserId) :
    (collusionResultOfCommunity th g community).collusionScore
      = min 1 (0.5 * specDensity g community
          + 0.5 * (specAvgCoVotes g community / 20)) := by
  simp only [collusionResultOfCommunity, collusionStats_spec, specDensity,
    specAvgCoVotes, Nat.choose_two_right]
  by_cases h : 0 < community.length * (community.length - 1) / 2
  · simp [h]
  · have h0 : community.length * (community.length - 1) / 2 = 0 := by omega
    simp [h, h0]

/-- The co-voting graph used by the C4 counterexample: users "A" and "B"
vote together on 21 proposals and users "B" and "C" on 21 other proposals
(so the pair counts are A–B = 21, B–C = 21, A–C = 0, all reached through
`addVote`; with the default `minCoVotes = 5` the breadth-first traversal
over edges of weight ≥ 5 yields the community {"A", "B", "C"}). -/
def c4ops : List (UserId × ProposalId) :=
  ((List.range 21).map
    (fun i => [("A", "q" ++ toString i), ("B", "q" ++ toString i)])).flatten
  ++ ((List.range 21).map
    (fun i => [("B", "r" ++ toString i), ("C", "r" ++ toString i)])).flatten

/-- See `c4ops`. -/
def gC4 : CoVotingGraph := CoVotingGraph.build c4ops

set_option maxRecDepth 10000 in
/-- C4 (counterexample): on the community {"A", "B", "C"} of `gC4` the
code's score is `min(1, 0.5 × 2/3 + 0.5 × 21/20) = 103/120`, while the
claimed formula with the inner cap gives
`min(1, 0.5 × 2/3 + 0.5 × min(1, 21/20)) = 5/6`; the two differ, so the
claimed `min(1, avgCoVotes/20)` cap is not present in the code. -/
theorem C4_counterexample :
    (collusionResultOfCommunity 0.7 gC4 ["A", "B", "C"]).collusionScore
      ≠ specCollusionScoreCapped gC4 ["A", "B", "C"] := by
  have hs := collusionStats_spec gC4 ["A", "B", "C"]
  have h1 : collusionStats gC4 ["A", "B", "C"] = (42, 2) := by decide
  rw [h1] at hs
  have ht : specTotalCoVotes gC4 ["A", "B", "C"] = 42 :=
    ((Prod.mk.injEq _ _ _ _).mp hs.symm).1
  have hr : specRealizedEdges gC4 ["A", "B", "C"] = 2 :=
    ((Prod.mk.injEq _ _ _ _).mp hs.symm).2
  simp only [collusionResultOfCommunity, specCollusionScoreCapped, specDensity,
    specAvgCoVotes, h1, ht, hr, List.length_cons, List.length_nil]
  norm_num [min_def]

/-! ## Engine frame lemmas -/

theorem updateBotDetection_userCredibilityScores (e : AntiAbuseEngine) (u : UserId) :
    (e.updateBotDetection u).userCredibilityScores = e.userCredibilityScores := by
  by_cases h : (e.botResultFor u).isSuspicious = true ∧
      e.botLikelihoodThreshold < (e.botResultFor u).botLikelihood
  · simp [AntiAbuseEngine.updateBotDetection, h, AntiAbuseEngine.generateThreatAlert,
      AntiAbuseEngine.markUserSuspicious]
  · simp [AntiAbuseEngine.updateBotDetection, h]

theorem recordVoteEvent_userCredibilityScores (e : AntiAbuseEngine) (u : UserId)
    (p : ProposalId) (t : Timestamp) (ip dev : String) :
    (e.recordVoteEvent u p t ip dev).userCredibilityScores = e.userCredibilityScores := by
  by_cases hip : ip = "" <;> by_cases hdev : dev = "" <;>
    simp [AntiAbuseEngine.recordVoteEvent, hip, hdev,
      updateBotDetection_userCredibilityScores]

/-! ## Claim C10: clearUser frame -/

/-- C10: `clearUser(u)` erases exactly u's entries in the seven per-user
maps (vote history, velocity window, IP set, device set, bot cache,
credibility cache, suspicious flag), leaves every other user's entries in
those maps unchanged, and leaves the co-voting graph (hence every
`getCoVoteCount`), the `ipToUsers` / `deviceToUsers` reverse indexes, the
collusion result cache, and the threat alert list untouched. -/
theorem C10_clearUser_frame (e : AntiAbuseEngine) (u v : UserId) (hv : v ≠ u) :
    (e.clearUser u).coVotingGraph = e.coVotingGraph ∧
    (∀ x y, (e.clearUser u).coVotingGraph.getCoVoteCount x y
        = e.coVotingGraph.getCoVoteCount x y) ∧
    (e.clearUser u).ipToUsers = e.ipToUsers ∧
    (e.clearUser u).deviceToUsers = e.deviceToUsers ∧
    (e.clearUser u).collusionDetectionCache = e.collusionDetectionCache ∧
    (e.clearUser u).threatAlerts = e.threatAlerts ∧
    (e.clearUser u).userVoteHistory u = none ∧
    (e.clearUser u).userVelocityWindows u = none ∧
    (e.clearUser u).userIPs u = none ∧
    (e.clearUser u).userDevices u = none ∧
    (e.clearUser u).botDetectionCache u = none ∧
    (e.clearUser u).userCredibilityScores u = none ∧
    (e.clearUser u).suspiciousUsers u = none ∧
    (e.clearUser u).userVoteHistory v = e.userVoteHistory v ∧
    (e.clearUser u).userVelocityWindows v = e.userVelocityWindows v ∧
    (e.clearUser u).userIPs v = e.userIPs v ∧
    (e.clearUser u).userDevices v = e.userDevices v ∧
    (e.clearUser u).botDetectionCache v = e.botDetectionCache v ∧
    (e.clearUser u).userCredibilityScores v = e.userCredibilityScores v ∧
    (e.clearUser u).suspiciousUsers v = e.suspiciousUsers v := by
  refine ⟨rfl, fun _ _ => rfl, rfl, rfl, rfl, rfl, ?_, ?_, ?_, ?_, ?_, ?_, ?_,
    ?_, ?_, ?_, ?_, ?_, ?_, ?_⟩ <;>
    simp [AntiAbuseEngine.clearUser, mapErase, hv]

/-- C10 (witness): the frame theorem applied to a fresh default engine and
the distinct users `"u1"`, `"u2"`. -/
theorem C10_clearUser_frame_witness :
    (("u2" : UserId) ≠ "u1") ∧
    (((AntiAbuseEngine.init 30 200 60).clearUser "u1").coVotingGraph
        = (AntiAbuseEngine.init 30 200 60).coVotingGraph ∧
     (∀ x y, ((AntiAbuseEngine.init 30 200 60).clearUser "u1").coVotingGraph.getCoVoteCount x y
        = (AntiAbuseEngine.init 30 200 60).coVotingGraph.getCoVoteCount x y) ∧
     ((AntiAbuseEngine.init 30 200 60).clearUser "u1").ipToUsers
        = (AntiAbuseEngine.init 30 200 60).ipToUsers ∧
     ((AntiAbuseEngine.init 30 200 60).clearUser "u1").deviceToUsers
        = (AntiAbuseEngine.init 30 200 60).deviceToUsers ∧
     ((AntiAbuseEngine.init 30 200 60).clearUser "u1").collusionDetectionCache
        = (AntiAbuseEngine.init 30 200 60).collusionDetectionCache ∧
     ((AntiAbuseEngine.init 30 200 60).clearUser "u1").threatAlerts
        = (AntiAbuseEngine.init 30 200 60).threatAlerts ∧
     ((AntiAbuseEngine.init 30 200 60).clearUser "u1").userVoteHistory "u1" = none ∧
     ((AntiAbuseEngine.init 30 200 60).clearUser "u1").userVelocityWindows "u1" = none ∧
     ((AntiAbuseEngine.init 30 200 60).clearUser "u1").userIPs "u1" = none ∧
     ((AntiAbuseEngine.init 30 200 60).clearUser "u1").userDevices "u1" = none ∧
     ((AntiAbuseEngine.init 30 200 60).clearUser "u1").botDetectionCache "u1" = none ∧
     ((AntiAbuseEngine.init 30 200 60).clearUser "u1").userCredibilityScores "u1" = none ∧
     ((AntiAbuseEngine.init 30 200 60).clearUser "u1").suspiciousUsers "u1" = none ∧
     ((AntiAbuseEngine.init 30 200 60).clearUser "u1").userVoteHistory "u2"
        = (AntiAbuseEngine.init 30 200 60).userVoteHistory "u2" ∧
     ((AntiAbuseEngine.init 30 200 60).clearUser "u1").userVelocityWindows "u2"
        = (AntiAbuseEngine.init 30 200 60).userVelocityWindows "u2" ∧
     ((AntiAbuseEngine.init 30 200 60).clearUser "u1").userIPs "u2"
        = (AntiAbuseEngine.init 30 200 60).userIPs "u2" ∧
     ((AntiAbuseEngine.init 30 200 60).clearUser "u1").userDevices "u2"
        = (AntiAbuseEngine.init 30 200 60).userDevices "u2" ∧
     ((AntiAbuseEngine.init 30 200 60).clearUser "u1").botDetectionCache "u2"
        = (AntiAbuseEngine.init 30 200 60).botDetectionCache "u2" ∧
     ((AntiAbuseEngine.init 30 200 60).clearUser "u1").userCredibilityScores "u2"
        = (AntiAbuseEngine.init 30 200 60).userCredibilityScores "u2" ∧
     ((AntiAbuseEngine.init 30 200 60).clearUser "u1").suspiciousUsers "u2"
        = (AntiAbuseEngine.init 30 200 60).suspiciousUsers "u2") :=
  ⟨by decide, C10_clearUser_frame (AntiAbuseEngine.init 30 200 60) "u1" "u2" (by decide)⟩

/-! ## Claim C1: unknown-user trust score -/

/-- C1: the claim (and the header comment of `getUserTrustScore`) says an
unknown user gets the neutral default trust score `0.5`.  The code has no
such early return: on a cache miss it runs the full credibility
computation, which on an empty history yields
`0.15·0.5 + 0.15·0.5 + 0.10·0.5 + 0.15·1 + 0.15·1 + 0.05·0.5 + 0.05·1
 = 23/40 = 0.575`, not `0.5`. -/
theorem C1_unknown_user_trust_score :
    ((AntiAbuseEngine.init 30 200 60).getUserTrustScore "u1").2 = 23/40 ∧
    ((AntiAbuseEngine.init 30 200 60).getUserTrustScore "u1").2 ≠ 1/2 := by
  have h : ((AntiAbuseEngine.init 30 200 60).getUserTrustScore "u1").2 = 23/40 := by
    norm_num [AntiAbuseEngine.getUserTrustScore, AntiAbuseEngine.calculateUserCredibility,
      AntiAbuseEngine.detectBot, AntiAbuseEngine.updateBotDetection,
      AntiAbuseEngine.botResultFor, AntiAbuseEngine.calculateVotingVelocity,
      AntiAbuseEngine.calculateAvgInterVoteGap, AntiAbuseEngine.detectBotBehavior,
      AntiAbuseEngine.calculateAccountAgeScore,
      AntiAbuseEngine.calculateMajorityAgreementScore, AntiAbuseEngine.init,
      AntiAbuseEngine.markUserSuspicious, AntiAbuseEngine.generateThreatAlert,
      deviceDiversityScoreOf, collusionScoreFor, mapInsert, min_def]
  refine ⟨h, ?_⟩
  rw [h]
  norm_num

/-! ## Claim C9: credibility cache and new events -/

/-- The engine state used for the C9 witness and counterexample: a fresh
default engine after one `getUserTrustScore("u1")` query, which caches the
credibility score of the (so far event-free) user `"u1"`. -/
def eC9 : AntiAbuseEngine :=
  ((AntiAbuseEngine.init 30 200 60).getUserTrustScore "u1").1

/-- The `UserCredibilityScore` record cached in `eC9` for `"u1"`. -/
def sC9 : UserCredibilityScore :=
  { userId := "u1", trustScore := 23/40, accountAgeScore := 0,
    deviceDiversityScore := 1/2, majorityAgreementScore := 1/2,
    verificationScore := 1/2, botLikelihood := 0, collusionScore := 0,
    consistencyScore := 1/2, reportScore := 1 }

theorem eC9_cached : eC9.userCredibilityScores "u1" = some sC9 := by
  norm_num [eC9, sC9, AntiAbuseEngine.getUserTrustScore,
    AntiAbuseEngine.calculateUserCredibility, AntiAbuseEngine.detectBot,
    AntiAbuseEngine.updateBotDetection, AntiAbuseEngine.botResultFor,
    AntiAbuseEngine.calculateVotingVelocity, AntiAbuseEngine.calculateAvgInterVoteGap,
    AntiAbuseEngine.detectBotBehavior, AntiAbuseEngine.calculateAccountAgeScore,
    AntiAbuseEngine.calculateMajorityAgreementScore, AntiAbuseEngine.init,
    AntiAbuseEngine.markUserSuspicious, AntiAbuseEngine.generateThreatAlert,
    deviceDiversityScoreOf, collusionScoreFor, mapInsert, min_def]

/-- C9 (amended): `recordVoteEvent` does NOT invalidate the cached
credibility score: after recording a new vote event for `u`, the cache
still holds the old record and the next `getUserTrustScore(u)` returns the
stale cached trust score unchanged (only `calculateAllCredibilityScores`,
`calculateUserCredibility`, `clearUser` or `clearAll` replace or drop it). -/
theorem C9_record_keeps_stale_credibility (e : AntiAbuseEngine) (u : UserId)
    (p : ProposalId) (t : Timestamp) (ip dev : String) (s : UserCredibilityScore)
    (h : e.userCredibilityScores u = some s) :
    (e.recordVoteEvent u p t ip dev).userCredibilityScores u = some s ∧
    ((e.recordVoteEvent u p t ip dev).getUserTrustScore u).2 = s.trustScore := by
  have hframe := recordVoteEvent_userCredibilityScores e u p t ip dev
  refine ⟨by rw [hframe]; exact h, ?_⟩
  simp [AntiAbuseEngine.getUserTrustScore, hframe, h]

/-- C9 (witness for the amended theorem): the concrete state `eC9`. -/
theorem C9_record_keeps_stale_credibility_witness :
    eC9.userCredibilityScores "u1" = some sC9 ∧
    ((eC9.recordVoteEvent "u1" "p1" 0 "ip1" "dev1").userCredibilityScores "u1"
        = some sC9 ∧
     ((eC9.recordVoteEvent "u1" "p1" 0 "ip1" "dev1").getUserTrustScore "u1").2
        = sC9.trustScore) :=
  ⟨eC9_cached,
   C9_record_keeps_stale_credibility eC9 "u1" "p1" 0 "ip1" "dev1" sC9 eC9_cached⟩

set_option maxHeartbeats 4000000 in
set_option maxRecDepth 10000 in
/-- C9 (counterexample): in state `eC9` user `"u1"` has the cached trust
score `23/40`.  After `recordVoteEvent("u1", "p1", 0, "ip1", "dev1")` the
next `getUserTrustScore("u1")` still returns the stale `23/40`, although a
recomputation over the post-event state (`calculateUserCredibility`)
yields `137/250 = 0.548`: the new event did not invalidate the cache. -/
theorem C9_counterexample :
    ((eC9.recordVoteEvent "u1" "p1" 0 "ip1" "dev1").getUserTrustScore "u1").2 = 23/40 ∧
    ((eC9.recordVoteEvent "u1" "p1" 0 "ip1"
        "dev1").calculateUserCredibility "u1").2.trustScore = 137/250 ∧
    ((eC9.recordVoteEvent "u1" "p1" 0 "ip1" "dev1").getUserTrustScore "u1").2 ≠
      ((eC9.recordVoteEvent "u1" "p1" 0 "ip1"
        "dev1").calculateUserCredibility "u1").2.trustScore := by
  have hframe := recordVoteEvent_userCredibilityScores eC9 "u1" "p1" 0 "ip1" "dev1"
  have h1 : ((eC9.recordVoteEvent "u1" "p1" 0 "ip1" "dev1").getUserTrustScore "u1").2
      = 23/40 := by
    simp [AntiAbuseEngine.getUserTrustScore, hframe, eC9_cached, sC9]
  have h2 : ((eC9.recordVoteEvent "u1" "p1" 0 "ip1"
      "dev1").calculateUserCredibility "u1").2.trustScore = 137/250 := by
    simp [eC9, AntiAbuseEngine.getUserTrustScore, AntiAbuseEngine.calculateUserCredibility,
      AntiAbuseEngine.detectBot, AntiAbuseEngine.updateBotDetection,
      AntiAbuseEngine.botResultFor, AntiAbuseEngine.calculateVotingVelocity,
      AntiAbuseEngine.calculateAvgInterVoteGap, AntiAbuseEngine.detectBotBehavior,
      AntiAbuseEngine.calculateAccountAgeScore,
      AntiAbuseEngine.calculateMajorityAgreementScore, AntiAbuseEngine.init,
      AntiAbuseEngine.markUserSuspicious, AntiAbuseEngine.generateThreatAlert,
      AntiAbuseEngine.recordVoteEvent, SlidingWindow.addEvent, SlidingWindow.cleanup,
      SlidingWindow.cleanupLoop, SlidingWindow.getRate, SlidingWindow.getAverageGapMs,
      gapSum, insertSet, CoVotingGraph.addVote, CoVotingGraph.empty,
      deviceDiversityScoreOf, collusionScoreFor, mapInsert]
    norm_num [min_def]
    simp [mapInsert]
    norm_num [min_def]
  refine ⟨h1, h2, ?_⟩
  rw [h1, h2]
  norm_num

/-! ## Bot-likelihood lemmas and claim C7 -/

theorem calculateVotingVelocity_nonneg (e : AntiAbuseEngine) (u : UserId)
    (hw : ∀ w, e.userVelocityWindows u = some w → 0 < w.windowSeconds) :
    0 ≤ e.calculateVotingVelocity u := by
  unfold AntiAbuseEngine.calculateVotingVelocity
  cases hcase : e.userVelocityWindows u with
  | none => simp
  | some w =>
    have hsecs : (0 : ℚ) < (w.windowSeconds : ℚ) := by
      exact_mod_cast hw w hcase
    simp only [Option.elim_some, SlidingWindow.getRate]
    split
    · exact le_refl 0
    · exact mul_nonneg (div_nonneg (by positivity) (le_of_lt hsecs)) (by norm_num)

theorem updateBotDetection_cache (e : AntiAbuseEngine) (u : UserId) :
    (e.updateBotDetection u).botDetectionCache u = some (e.botResultFor u) := by
  by_cases h : (e.botResultFor u).isSuspicious = true ∧
      e.botLikelihoodThreshold < (e.botResultFor u).botLikelihood
  · simp [AntiAbuseEngine.updateBotDetection, h, AntiAbuseEngine.generateThreatAlert,
      AntiAbuseEngine.markUserSuspicious, mapInsert]
  · simp [AntiAbuseEngine.updateBotDetection, h, mapInsert]

theorem botResultFor_bounds (e : AntiAbuseEngine) (u : UserId)
    (hvt : 0 < e.velocityThreshold) (hd : 0 < e.deltaThresholdMs)
    (hw : ∀ w, e.userVelocityWindows u = some w → 0 < w.windowSeconds) :
    0 ≤ (e.botResultFor u).botLikelihood ∧ (e.botResultFor u).botLikelihood ≤ 1 := by
  have hrate := calculateVotingVelocity_nonneg e u hw
  have h1 : (0 : ℚ) ≤ min 1 (e.calculateVotingVelocity u / (e.velocityThreshold * 2)) :=
    le_min (by norm_num) (div_nonneg hrate (by linarith))
  have h2 : (0 : ℚ) ≤
      (if 0 < e.calculateAvgInterVoteGap u ∧
          e.calculateAvgInterVoteGap u < e.deltaThresholdMs then
        1 - e.calculateAvgInterVoteGap u / e.deltaThresholdMs
      else 0) := by
    split
    · rename_i hcond
      have := (div_le_one hd).mpr (le_of_lt hcond.2)
      linarith
    · exact le_refl 0
  have h3 : (0 : ℚ) ≤ (if ((e.userDevices u).getD []).length = 1 then (0.3 : ℚ) else 0) := by
    split <;> norm_num
  have h4 : (0 : ℚ) ≤ (if ((e.userIPs u).getD []).length = 1 then (0.2 : ℚ) else 0) := by
    split <;> norm_num
  unfold AntiAbuseEngine.botResultFor
  simp only
  constructor
  · apply le_min (by norm_num)
    have := mul_nonneg (by norm_num : (0:ℚ) ≤ 0.4) h1
    have := mul_nonneg (by norm_num : (0:ℚ) ≤ 0.4) h2
    linarith
  · exact min_le_left _ _

/-- C7: for every engine state with a valid configuration (positive
velocity and gap thresholds, positive stored window durations), the
`botLikelihood` cached by `updateBotDetection` (1) equals the spec's
weighted blend `min(1, 0.4·min(1, rate/(2·velocityThreshold)) +
0.4·gapTerm + 0.3·[one device] + 0.2·[one IP])`, (2) lies in `[0, 1]`,
(3) is `0` for a user with no recorded events (no window, no devices, no
IPs), and (4) saturates at `1` under extreme velocity (rate at least twice
the threshold, with a small positive gap and a single device and IP). -/
theorem C7_botLikelihood_blend (e : AntiAbuseEngine) (u : UserId)
    (hvt : 0 < e.velocityThreshold) (hd : 0 < e.deltaThresholdMs)
    (hw : ∀ w, e.userVelocityWindows u = some w → 0 < w.windowSeconds) :
    (e.updateBotDetection u).botDetectionCache u = some (e.botResultFor u) ∧
    (e.botResultFor u).botLikelihood
      = specBotLikelihood e.velocityThreshold e.deltaThresholdMs
          (e.calculateVotingVelocity u) (e.calculateAvgInterVoteGap u)
          ((e.userDevices u).getD []).length ((e.userIPs u).getD []).length ∧
    0 ≤ (e.botResultFor u).botLikelihood ∧
    (e.botResultFor u).botLikelihood ≤ 1 ∧
    (e.userVelocityWindows u = none → e.userDevices u = none → e.userIPs u = none →
      (e.botResultFor u).botLikelihood = 0) ∧
    (2 * e.velocityThreshold ≤ e.calculateVotingVelocity u →
      0 < e.calculateAvgInterVoteGap u →
      4 * e.calculateAvgInterVoteGap u ≤ 3 * e.deltaThresholdMs →
      ((e.userDevices u).getD []).length = 1 →
      ((e.userIPs u).getD []).length = 1 →
      (e.botResultFor u).botLikelihood = 1) := by
  refine ⟨updateBotDetection_cache e u, ?_, (botResultFor_bounds e u hvt hd hw).1,
    (botResultFor_bounds e u hvt hd hw).2, ?_, ?_⟩
  · unfold AntiAbuseEngine.botResultFor specBotLikelihood
    simp only
    rw [mul_comm e.velocityThreshold 2]
    by_cases hdev : ((e.userDevices u).getD []).length = 1 <;>
      by_cases hip : ((e.userIPs u).getD []).length = 1 <;>
      simp [hdev, hip]
  · intro hwin hdev hip
    unfold AntiAbuseEngine.botResultFor
    simp [AntiAbuseEngine.calculateVotingVelocity, AntiAbuseEngine.calculateAvgInterVoteGap,
      hwin, hdev, hip]
  · intro hrate hgap1 hgap2 hdev hip
    have hvel : min 1 (e.calculateVotingVelocity u / (e.velocityThreshold * 2)) = 1 := by
      apply min_eq_left
      rw [le_div_iff₀ (by linarith)]
      linarith
    have hgap3 : e.calculateAvgInterVoteGap u < e.deltaThresholdMs := by linarith
    have hgapterm : e.calculateAvgInterVoteGap u / e.deltaThresholdMs ≤ 3 / 4 := by
      rw [div_le_iff₀ hd]
      linarith
    unfold AntiAbuseEngine.botResultFor
    simp only [hvel, hdev, hip, if_pos, if_pos (And.intro hgap1 hgap3)]
    apply min_eq_left
    linarith

/-- C7 (witness): the blend theorem applied to a fresh default engine
(velocity threshold 30, gap threshold 200 ms, 60 s window) and user
`"u1"`. -/
theorem C7_botLikelihood_blend_witness :
    (0 : ℚ) < 30 ∧ (0 : ℚ) < 200 ∧
    (((AntiAbuseEngine.init 30 200 60).updateBotDetection "u1").botDetectionCache "u1"
        = some ((AntiAbuseEngine.init 30 200 60).botResultFor "u1") ∧
     ((AntiAbuseEngine.init 30 200 60).botResultFor "u1").botLikelihood
        = specBotLikelihood (AntiAbuseEngine.init 30 200 60).velocityThreshold
            (AntiAbuseEngine.init 30 200 60).deltaThresholdMs
            ((AntiAbuseEngine.init 30 200 60).calculateVotingVelocity "u1")
            ((AntiAbuseEngine.init 30 200 60).calculateAvgInterVoteGap "u1")
            (((AntiAbuseEngine.init 30 200 60).userDevices "u1").getD []).length
            (((AntiAbuseEngine.init 30 200 60).userIPs "u1").getD []).length ∧
     0 ≤ ((AntiAbuseEngine.init 30 200 60).botResultFor "u1").botLikelihood ∧
     ((AntiAbuseEngine.init 30 200 60).botResultFor "u1").botLikelihood ≤ 1 ∧
     ((AntiAbuseEngine.init 30 200 60).userVelocityWindows "u1" = none →
      (AntiAbuseEngine.init 30 200 60).userDevices "u1" = none →
      (AntiAbuseEngine.init 30 200 60).userIPs "u1" = none →
      ((AntiAbuseEngine.init 30 200 60).botResultFor "u1").botLikelihood = 0) ∧
     (2 * (AntiAbuseEngine.init 30 200 60).velocityThreshold
        ≤ (AntiAbuseEngine.init 30 200 60).calculateVotingVelocity "u1" →
      0 < (AntiAbuseEngine.init 30 200 60).calculateAvgInterVoteGap "u1" →
      4 * (AntiAbuseEngine.init 30 200 60).calculateAvgInterVoteGap "u1"
        ≤ 3 * (AntiAbuseEngine.init 30 200 60).deltaThresholdMs →
      (((AntiAbuseEngine.init 30 200 60).userDevices "u1").getD []).length = 1 →
      (((AntiAbuseEngine.init 30 200 60).userIPs "u1").getD []).length = 1 →
      ((AntiAbuseEngine.init 30 200 60).botResultFor "u1").botLikelihood = 1)) :=
  ⟨by norm_num, by norm_num,
   C7_botLikelihood_blend (AntiAbuseEngine.init 30 200 60) "u1"
     (by norm_num [AntiAbuseEngine.init]) (by norm_num [AntiAbuseEngine.init])
     (fun w h => by simp [AntiAbuseEngine.init] at h)⟩

/-! ## Credibility lemmas and claim C8 -/

theorem calculateAccountAgeScore_bounds (e : AntiAbuseEngine) (u : UserId) :
    0 ≤ e.calculateAccountAgeScore u ∧ e.calculateAccountAgeScore u ≤ 1 := by
  unfold AntiAbuseEngine.calculateAccountAgeScore
  exact ⟨le_min (by norm_num) (by positivity), min_le_left _ _⟩

theorem deviceDiversityScoreOf_bounds (n : Nat) :
    0 ≤ deviceDiversityScoreOf n ∧ deviceDiversityScoreOf n ≤ 1 := by
  unfold deviceDiversityScoreOf
  split_ifs <;> norm_num

theorem collusionScoreFor_loop_bounds (u : UserId) (cache : List CollusionDetectionResult) :
    ∀ acc : ℚ, 0 ≤ acc → acc ≤ 1 →
    (∀ r ∈ cache, 0 ≤ r.collusionScore ∧ r.collusionScore ≤ 1) →
    0 ≤ cache.foldl
        (fun acc r => if u ∈ r.userGroup then max acc r.collusionScore else acc) acc ∧
    cache.foldl
        (fun acc r => if u ∈ r.userGroup then max acc r.collusionScore else acc) acc ≤ 1 := by
  induction cache with
  | nil => intro acc h0 h1 _; simpa using ⟨h0, h1⟩
  | cons r l ih =>
    intro acc h0 h1 hc
    simp only [List.foldl_cons]
    by_cases hm : u ∈ r.userGroup
    · simp only [if_pos hm]
      exact ih _ (le_max_of_le_left h0)
        (max_le h1 (hc r (by simp)).2) (fun x hx => hc x (by simp [hx]))
    · simp only [if_neg hm]
      exact ih _ h0 h1 (fun x hx => hc x (by simp [hx]))

theorem collusionScoreFor_bounds (cache : List CollusionDetectionResult) (u : UserId)
    (hc : ∀ r ∈ cache, 0 ≤ r.collusionScore ∧ r.collusionScore ≤ 1) :
    0 ≤ collusionScoreFor cache u ∧ collusionScoreFor cache u ≤ 1 :=
  collusionScoreFor_loop_bounds u cache 0 (le_refl 0) (by norm_num) hc

theorem updateBotDetection_collusionCache (e : AntiAbuseEngine) (u : UserId) :
    (e.updateBotDetection u).collusionDetectionCache = e.collusionDetectionCache := by
  by_cases h : (e.botResultFor u).isSuspicious = true ∧
      e.botLikelihoodThreshold < (e.botResultFor u).botLikelihood
  · simp [AntiAbuseEngine.updateBotDetection, h, AntiAbuseEngine.generateThreatAlert,
      AntiAbuseEngine.markUserSuspicious]
  · simp [AntiAbuseEngine.updateBotDetection, h]

/-- C8: for every engine state with a valid configuration, a bot cache
whose entries are in `[0,1]` and a collusion cache whose scores are in
`[0,1]` (both invariants of states the engine itself produces), the trust
score computed by `calculateUserCredibility` equals the fixed linear
combination `0.20·accountAge + 0.15·deviceDiversity +
0.15·majorityAgreement + 0.10·verification + 0.15·(1−botLikelihood) +
0.15·(1−collusion) + 0.05·consistency + 0.05·reportScore` of the stored
component scores, the eight weights sum to exactly `1`, and the trust
score lies in `[0, 1]`. -/
theorem C8_trustScore_combination (e : AntiAbuseEngine) (u : UserId)
    (hvt : 0 < e.velocityThreshold) (hd : 0 < e.deltaThresholdMs)
    (hw : ∀ w, e.userVelocityWindows u = some w → 0 < w.windowSeconds)
    (hb : ∀ r, e.botDetectionCache u = some r →
        0 ≤ r.botLikelihood ∧ r.botLikelihood ≤ 1)
    (hc : ∀ r ∈ e.collusionDetectionCache,
        0 ≤ r.collusionScore ∧ r.collusionScore ≤ 1) :
    (e.calculateUserCredibility u).2.trustScore
      = 0.20 * (e.calculateUserCredibility u).2.accountAgeScore
      + 0.15 * (e.calculateUserCredibility u).2.deviceDiversityScore
      + 0.15 * (e.calculateUserCredibility u).2.majorityAgreementScore
      + 0.10 * (e.calculateUserCredibility u).2.verificationScore
      + 0.15 * (1 - (e.calculateUserCredibility u).2.botLikelihood)
      + 0.15 * (1 - (e.calculateUserCredibility u).2.collusionScore)
      + 0.05 * (e.calculateUserCredibility u).2.consistencyScore
      + 0.05 * (e.calculateUserCredibility u).2.reportScore ∧
    (0.20 + 0.15 + 0.15 + 0.10 + 0.15 + 0.15 + 0.05 + 0.05 : ℚ) = 1 ∧
    0 ≤ (e.calculateUserCredibility u).2.trustScore ∧
    (e.calculateUserCredibility u).2.trustScore ≤ 1 := by
  refine ⟨?_, by norm_num, ?_⟩
  · cases hcache : e.botDetectionCache u with
    | none =>
      simp [AntiAbuseEngine.calculateUserCredibility, AntiAbuseEngine.detectBot, hcache]
    | some r =>
      simp [AntiAbuseEngine.calculateUserCredibility, AntiAbuseEngine.detectBot, hcache]
  · cases hcache : e.botDetectionCache u with
    | none =>
      have hA := calculateAccountAgeScore_bounds (e.updateBotDetection u) u
      have hD := deviceDiversityScoreOf_bounds
        (((e.updateBotDetection u).userDevices u).getD []).length
      have hB := botResultFor_bounds e u hvt hd hw
      have hC := collusionScoreFor_bounds e.collusionDetectionCache u hc
      simp only [AntiAbuseEngine.calculateUserCredibility, AntiAbuseEngine.detectBot,
        hcache, Option.elim_none, updateBotDetection_cache, Option.getD_some,
        updateBotDetection_collusionCache,
        AntiAbuseEngine.calculateMajorityAgreementScore]
      constructor <;> linarith [hA.1, hA.2, hD.1, hD.2, hB.1, hB.2, hC.1, hC.2]
    | some r =>
      have hA := calculateAccountAgeScore_bounds e u
      have hD := deviceDiversityScoreOf_bounds (((e.userDevices u).getD []).length)
      have hB := hb r hcache
      have hC := collusionScoreFor_bounds e.collusionDetectionCache u hc
      simp only [AntiAbuseEngine.calculateUserCredibility, AntiAbuseEngine.detectBot,
        hcache, Option.elim_some, AntiAbuseEngine.calculateMajorityAgreementScore]
      constructor <;> linarith [hA.1, hA.2, hD.1, hD.2, hB.1, hB.2, hC.1, hC.2]

/-- C8 (witness): the combination theorem applied to a fresh default
engine and user `"u1"`. -/
theorem C8_trustScore_combination_witness :
    (0 : ℚ) < 30 ∧ (0 : ℚ) < 200 ∧
    (((AntiAbuseEngine.init 30 200 60).calculateUserCredibility "u1").2.trustScore
      = 0.20 * ((AntiAbuseEngine.init 30 200 60).calculateUserCredibility
          "u1").2.accountAgeScore
      + 0.15 * ((AntiAbuseEngine.init 30 200 60).calculateUserCredibility
          "u1").2.deviceDiversityScore
      + 0.15 * ((AntiAbuseEngine.init 30 200 60).calculateUserCredibility
          "u1").2.majorityAgreementScore
      + 0.10 * ((AntiAbuseEngine.init 30 200 60).calculateUserCredibility
          "u1").2.verificationScore
      + 0.15 * (1 - ((AntiAbuseEngine.init 30 200 60).calculateUserCredibility
          "u1").2.botLikelihood)
      + 0.15 * (1 - ((AntiAbuseEngine.init 30 200 60).calculateUserCredibility
          "u1").2.collusionScore)
      + 0.05 * ((AntiAbuseEngine.init 30 200 60).calculateUserCredibility
          "u1").2.consistencyScore
      + 0.05 * ((AntiAbuseEngine.init 30 200 60).calculateUserCredibility
          "u1").2.reportScore ∧
     (0.20 + 0.15 + 0.15 + 0.10 + 0.15 + 0.15 + 0.05 + 0.05 : ℚ) = 1 ∧
     0 ≤ ((AntiAbuseEngine.init 30 200 60).calculateUserCredibility "u1").2.trustScore ∧
     ((AntiAbuseEngine.init 30 200 60).calculateUserCredibility "u1").2.trustScore ≤ 1) :=
  ⟨by norm_num, by norm_num,
   C8_trustScore_combination (AntiAbuseEngine.init 30 200 60) "u1"
     (by norm_num [AntiAbuseEngine.init]) (by norm_num [AntiAbuseEngine.init])
     (fun w h => by simp [AntiAbuseEngine.init] at h)
     (fun r h => by simp [AntiAbuseEngine.init] at h)
     (fun r h => by simp [AntiAbuseEngine.init] at h)⟩
